import Mathlib

/-!
Verification of the robinhood-bot signal-to-order core against its
natural-language specification.

The Python sources are shallowly embedded: machine floats become exact
rationals (ℚ); the transcendental kernels the code calls (np.sqrt, np.log,
np.exp, round-to-4-decimals) are passed in as function parameters, since no
verified property depends on their values; fallible code returns Except over
an explicit Python-exception type; pandas NaN is modelled as `none` in
`Option ℚ` where NaN can reach a compared value.
-/

set_option linter.unusedVariables false

namespace RobinhoodBot

/-- Arithmetic mean of a list of rationals (division by zero yields 0,
matching no reachable case in the guarded callers). -/
def mean (l : List ℚ) : ℚ := l.sum / (l.length : ℚ)

/-- Sample variance (ddof = 1), as used by pandas `.std()` before the square
root. For a singleton list pandas yields NaN; here the ℚ division by zero
yields 0, a corner no verified claim touches. -/
def sample_var (l : List ℚ) : ℚ :=
  ((l.map (fun x => (x - mean l) ^ 2)).sum) / ((l.length : ℚ) - 1)

/-- Recommendation values of `OrderType` in src/src/core/config.py (module
absent from src/; the three members are fixed by their uses in the
strategy modules). -/
inductive OrderType where
  | buy_recommendation
  | sell_recommendation
  | hold_recommendation
deriving DecidableEq, Repr

/-- Python exception classes that the embedded code can raise or catch. -/
inductive PyError where
  | valueError
  | keyError
  | indexError
  | zeroDivisionError
  | emptyDataError
deriving DecidableEq, Repr

/-- src/src/data/position.py: the Position dataclass. -/
structure Position where
  quantity : ℚ
  average_buy_price : ℚ
  current_price : ℚ
  equity : ℚ
  unrealized_pl : ℚ
  unrealized_pl_pct : ℚ
  highest_price : ℚ
deriving DecidableEq, Repr

/-- Configuration fields of TradingConfig consumed by the SMA strategy
(src/src/core/config.py is absent from src/; the field set is fixed by its
uses in src/src/strategies/simple_moving_average.py). -/
structure SMAConfig where
  sma_short_period : ℕ
  sma_long_period : ℕ
  momentum_lookback_period : ℕ
  momentum_threshold : ℚ
  threshold_percentage : ℚ
  enable_dynamic_threshold : Bool
deriving DecidableEq, Repr

namespace TradeBotSimpleMovingAverage

/-- The TechnicalIndicators TypedDict of
src/src/strategies/simple_moving_average.py. -/
structure TechnicalIndicators where
  sma : ℚ
  std : ℚ
  momentum : ℚ
  volatility : ℚ
deriving DecidableEq, Repr

/-- The zeroed snapshot returned on every degraded path. -/
def zero_indicators : TechnicalIndicators :=
  { sma := 0, std := 0, momentum := 0, volatility := 0 }

/-- `calculate_technical_indicators` (simple_moving_average.py lines 48-91).
The input close column is a list of `Option ℚ`: `none` is a value that
`pd.to_numeric(..., errors="coerce")` turns into NaN and `dropna` removes.
`sqrtFn`, `logFn` and `round4` stand for the float kernels np.sqrt, np.log
and Python `round(x, 4)`; the structure of the computation (guards, windows,
last-row extraction) is embedded exactly, and the ℚ corners where pandas
would produce NaN are noted inline. -/
def calculate_technical_indicators (sqrtFn logFn round4 : ℚ → ℚ) (cfg : SMAConfig)
    (closes : List (Option ℚ)) (period : ℕ) : TechnicalIndicators :=
  -- `if df is None or df.empty or not period`
  if closes = [] ∨ period = 0 then zero_indicators
  else
    let valid := closes.filterMap id
    -- `if len(df) < period` after dropna
    if valid.length < period then zero_indicators
    else
      let n := valid.length
      -- rolling(window=period, min_periods=1) at the last row: the trailing
      -- `period` samples (n ≥ period holds in this branch)
      let sma_window := valid.drop (n - period)
      let sma_last := mean sma_window
      let std_last := sqrtFn (sample_var sma_window)
      let k := cfg.momentum_lookback_period
      -- pct_change(k) at the last row; pandas yields NaN when the lookback
      -- reaches before the series start (k ≥ n), modelled as 0
      let momentum_last :=
        if k < n then (valid.getLastD 0) / (valid.getD (n - 1 - k) 0) - 1 else 0
      -- log_return[i] = log(close[i] / close[i-1]), i ≥ 1; the series'
      -- leading NaN entry is dropped here and accounted for in the guard below
      let log_returns := (List.zip (valid.drop 1) valid).map (fun p => logFn (p.1 / p.2))
      -- rolling(window=period).std() * sqrt(252) at the last row; with
      -- n = period the last window still contains the leading NaN, and sample
      -- std needs 2 points, both giving NaN in pandas, modelled as 0
      let vol_last :=
        if n ≤ period ∨ period < 2 then 0
        else sqrtFn (sample_var (log_returns.drop (log_returns.length - period))) * sqrtFn 252
      { sma := round4 sma_last, std := round4 std_last,
        momentum := round4 momentum_last, volatility := round4 vol_last }

/-- `analyze_market_conditions` (simple_moving_average.py lines 93-128),
returning (trend_strength, signal_strength, momentum_signal). The Python
falsy test `not short_term.get("sma")` and the explicit `== 0` test on the
long-term SMA both reduce to equality with zero on a present numeric field. -/
def analyze_market_conditions (cfg : SMAConfig)
    (short_term long_term : TechnicalIndicators) : ℚ × ℚ × Bool :=
  if long_term.sma = 0 then (0, 0, false)
  else if short_term.sma = 0 then (0, 0, false)
  else
    let price_trend := (short_term.sma - long_term.sma) / long_term.sma
    let volatility_ratio :=
      if long_term.volatility > 0 then short_term.volatility / long_term.volatility else 1
    let trend_strength := |price_trend| * (1 + volatility_ratio)
    let signal_strength := price_trend * (1 + |short_term.momentum|)
    let momentum_signal := decide (short_term.momentum > cfg.momentum_threshold)
    (trend_strength, signal_strength, momentum_signal)

/-- The effective decision threshold (simple_moving_average.py lines 187-191). -/
def effective_threshold (cfg : SMAConfig) (trend_strength : ℚ) : ℚ :=
  if cfg.enable_dynamic_threshold then cfg.threshold_percentage * (1 + trend_strength)
  else cfg.threshold_percentage

/-- The decision core of `make_order_recommendation` (simple_moving_average.py
lines 181-198), as a function of the two already-computed indicator
snapshots. Data retrieval and the base-class risk gate that precede it act
on external state and are outside this pure core. -/
def make_order_recommendation (cfg : SMAConfig)
    (short_term long_term : TechnicalIndicators) : OrderType :=
  let a := analyze_market_conditions cfg short_term long_term
  let threshold := effective_threshold cfg a.1
  if a.2.1 > threshold ∧ a.2.2 = true then OrderType.buy_recommendation
  else if a.2.1 < -threshold ∨ (a.2.1 < 0 ∧ a.2.2 = false) then OrderType.sell_recommendation
  else OrderType.hold_recommendation

end TradeBotSimpleMovingAverage

/-- src/src/core/portfolio_manager.py: the PortfolioMetrics dataclass.
Dictionaries become association lists (insertion-ordered, keys unique by
construction of the owner). -/
structure PortfolioMetrics where
  total_equity : ℚ
  cash_available : ℚ
  positions : List (String × Position)
  sector_exposure : List (String × ℚ)
  beta_weighted_delta : ℚ
  sharpe_ratio : ℚ
  sortino_ratio : ℚ
deriving DecidableEq, Repr

/-- src/src/core/portfolio_manager.py: the state of a PortfolioManager. -/
structure PortfolioManager where
  initial_capital : ℚ
  max_position_size : ℚ
  positions : List (String × Position)
deriving DecidableEq, Repr

/-- `get_portfolio_metrics` (portfolio_manager.py lines 66-82): a derived
view recomputed from the live positions on every call. -/
def PortfolioManager.get_portfolio_metrics (pm : PortfolioManager) : PortfolioMetrics :=
  let total_equity := (pm.positions.map (fun p => p.2.equity)).sum
  { total_equity := total_equity
    cash_available := pm.initial_capital - total_equity
    positions := pm.positions
    sector_exposure := []
    beta_weighted_delta := 0
    sharpe_ratio := 0
    sortino_ratio := 0 }

/-- `calculate_position_size` (portfolio_manager.py lines 38-64), the
Kelly-criterion sizer. `expNeg` stands for the float kernel
`fun v => np.exp (-v)`; everything else is exact. -/
def PortfolioManager.calculate_position_size (expNeg : ℚ → ℚ) (pm : PortfolioManager)
    (ticker : String) (signal_strength volatility : ℚ) : ℚ :=
  let available_capital := pm.get_portfolio_metrics.cash_available
  let win_rate : ℚ := 55 / 100
  let win_loss_ratio : ℚ := 3 / 2
  let kelly_percentage := (win_rate * win_loss_ratio - (1 - win_rate)) / win_loss_ratio
  let vol_factor := expNeg volatility
  let base_size := available_capital * kelly_percentage * vol_factor
  let adjusted_size := base_size * |signal_strength|
  let max_allowed := available_capital * pm.max_position_size
  min adjusted_size max_allowed

/-- Configuration fields of `config.vwap` consumed by the VWAP strategy
(src/src/core/config.py is absent from src/; the field set is fixed by its
uses in src/src/strategies/vwap_bot.py). -/
structure VWAPConfig where
  vwap_window : ℕ
  enable_dynamic_threshold : Bool
  volume_threshold : ℚ
  mean_reversion_threshold : ℚ
  stop_loss_percentage : ℚ
  take_profit_percentage : ℚ
  trailing_stop : ℚ
  max_position_size : ℚ
deriving DecidableEq, Repr

namespace TradeBotVWAP

/-- `_check_risk_management` (vwap_bot.py lines 143-176). Returns the
Python call's outcome together with the position object as it stands after
the call (its `highest_price` mutation persists even when an exception
escapes). The only exceptions reachable in the body are ZeroDivisionError
from the two divisions; the except clause catches only KeyError and
ValueError, so they propagate. -/
def check_risk_management (cfg : VWAPConfig) (current_price : ℚ) (position : Position) :
    Except PyError Bool × Position :=
  let position_value := current_price * position.quantity
  if position.average_buy_price = 0 then
    -- the unrealized_pl division raises before the watermark update runs
    (Except.error PyError.zeroDivisionError, position)
  else
    let unrealized_pl :=
      (current_price - position.average_buy_price) / position.average_buy_price
    -- `position.highest_price = max(position.highest_price, position_value)`
    let position1 := { position with highest_price := max position.highest_price position_value }
    if unrealized_pl < -cfg.stop_loss_percentage then (Except.ok true, position1)
    else if unrealized_pl > cfg.take_profit_percentage then (Except.ok true, position1)
    else if position1.highest_price = 0 then
      -- trailing-stop division by a zero watermark raises, uncaught
      (Except.error PyError.zeroDivisionError, position1)
    else if (position1.highest_price - position_value) / position1.highest_price >
        cfg.trailing_stop then (Except.ok true, position1)
    else if position_value > cfg.max_position_size then (Except.ok true, position1)
    else (Except.ok false, position1)

/-- A sequence of successive `_check_risk_management` calls on one position,
threading the position state (quantity and entry price are refreshed by
other components, the watermark only here). -/
def run_risk_evaluations (cfg : VWAPConfig) (prices : List ℚ) (position : Position) : Position :=
  prices.foldl (fun p price => (check_risk_management cfg price p).2) position

/-- One row of an OHLCV dataframe as the VWAP bot reads it; `none` models a
value that `pd.to_numeric(..., errors="coerce")` turns into NaN. -/
structure Bar where
  close_price : Option ℚ
  volume : Option ℚ
  high_price : Option ℚ
  low_price : Option ℚ
deriving DecidableEq, Repr

/-- A dataframe returned by the market-data collaborator:
`has_price_columns = false` models a frame missing the OHLCV columns
(column access raises KeyError). -/
structure DataFrame where
  has_price_columns : Bool
  rows : List Bar
deriving DecidableEq, Repr

/-- NaN-propagating float addition. -/
def oadd : Option ℚ → Option ℚ → Option ℚ
  | some a, some b => some (a + b)
  | _, _ => none

/-- NaN-propagating float subtraction. -/
def osub : Option ℚ → Option ℚ → Option ℚ
  | some a, some b => some (a - b)
  | _, _ => none

/-- NaN-propagating float multiplication. -/
def omul : Option ℚ → Option ℚ → Option ℚ
  | some a, some b => some (a * b)
  | _, _ => none

/-- NaN-propagating float division; a zero denominator gives a non-finite
float (±inf or NaN), modelled as `none`. -/
def odiv : Option ℚ → Option ℚ → Option ℚ
  | some a, some b => if b = 0 then none else some (a / b)
  | _, _ => none

/-- Float `<` with NaN semantics: any comparison against a missing value is
false. (A genuine ±inf would compare; no verified claim reaches one.) -/
def olt : Option ℚ → Option ℚ → Bool
  | some a, some b => decide (a < b)
  | _, _ => false

/-- NaN-propagating negation. -/
def oneg : Option ℚ → Option ℚ
  | some a => some (-a)
  | none => none

/-- NaN-propagating absolute value. -/
def oabs : Option ℚ → Option ℚ
  | some a => some |a|
  | none => none

/-- Last element of a float series (the callers guarantee non-emptiness). -/
def olast (l : List (Option ℚ)) : Option ℚ :=
  match l.getLast? with
  | some v => v
  | none => none

/-- pandas `cumsum` (skipna = true): NaN entries stay NaN in the output
while the running sum skips them. -/
def cumsum_go : List (Option ℚ) → ℚ → List (Option ℚ)
  | [], _ => []
  | some x :: rest, acc => some (acc + x) :: cumsum_go rest (acc + x)
  | none :: rest, acc => none :: cumsum_go rest acc

/-- pandas `cumsum` over a float series. -/
def cumsum (l : List (Option ℚ)) : List (Option ℚ) := cumsum_go l 0

/-- Last value of `series.rolling(window=window).std()`: NaN unless the
series has at least `window` rows, the trailing window is NaN-free
(min_periods defaults to the window size) and the sample std has a degree
of freedom. -/
def rolling_std_last (sqrtFn : ℚ → ℚ) (window : ℕ) (l : List (Option ℚ)) : Option ℚ :=
  if l.length < window ∨ window < 2 then none
  else
    let w := l.drop (l.length - window)
    if w.all Option.isSome then some (sqrtFn (sample_var (w.filterMap id))) else none

/-- Last value of `series.rolling(window=window).mean()`, same NaN policy. -/
def rolling_mean_last (window : ℕ) (l : List (Option ℚ)) : Option ℚ :=
  if l.length < window ∨ window = 0 then none
  else
    let w := l.drop (l.length - window)
    if w.all Option.isSome then some (mean (w.filterMap id)) else none

/-- The VWAPMetrics dataclass (vwap_bot.py lines 29-37); fields are
possibly-NaN floats. -/
structure VWAPMetrics where
  vwap : Option ℚ
  std_dev : Option ℚ
  upper_band : Option ℚ
  lower_band : Option ℚ
  volume_ratio : Option ℚ
deriving DecidableEq, Repr

/-- `calculate_vwap_metrics` (vwap_bot.py lines 62-94). A missing column
raises KeyError, which the except clause converts into
ValueError("VWAP calculation failed"); an empty frame makes `df.iloc[-1]`
raise IndexError, which the except clause (KeyError, ValueError,
EmptyDataError) does NOT catch, so it escapes as IndexError. -/
def calculate_vwap_metrics (sqrtFn : ℚ → ℚ) (cfg : VWAPConfig) (df : DataFrame) :
    Except PyError VWAPMetrics :=
  if df.has_price_columns = false then Except.error PyError.valueError
  else if df.rows = [] then Except.error PyError.indexError
  else
    let typical := df.rows.map (fun b =>
      odiv (oadd (oadd b.high_price b.low_price) b.close_price) (some 3))
    let vols := df.rows.map (fun b => b.volume)
    let cum_vol := cumsum vols
    let cum_vol_price := cumsum (List.zipWith omul typical vols)
    let vwap_series := List.zipWith odiv cum_vol_price cum_vol
    let window := cfg.vwap_window
    let vwap_std_last := rolling_std_last sqrtFn window vwap_series
    let volume_sma_last := rolling_mean_last window vols
    let vwap_last := olast vwap_series
    Except.ok
      { vwap := vwap_last
        std_dev := vwap_std_last
        upper_band := oadd vwap_last (omul (some 2) vwap_std_last)
        lower_band := osub vwap_last (omul (some 2) vwap_std_last)
        volume_ratio := odiv (olast vols) volume_sma_last }

/-- `make_trading_decision` (vwap_bot.py lines 96-141), taking the two
already-fetched dataframes as inputs (`get_stock_history_dataframe` is an
external collaborator). The surrounding `try` catches only ValueError and
pandas EmptyDataError and turns them into HOLD; every other exception
propagates to the caller. -/
def make_trading_decision (sqrtFn : ℚ → ℚ) (cfg : VWAPConfig)
    (intraday_df daily_df : DataFrame) (current_price : ℚ)
    (position : Option Position) : Except PyError OrderType :=
  let body : Except PyError OrderType :=
    match calculate_vwap_metrics sqrtFn cfg intraday_df with
    | Except.error e => Except.error e
    | Except.ok intraday_metrics =>
      match calculate_vwap_metrics sqrtFn cfg daily_df with
      | Except.error e => Except.error e
      | Except.ok daily_metrics =>
        let risk : Except PyError Bool :=
          match position with
          | none => Except.ok false
          | some pos => (check_risk_management cfg current_price pos).1
        match risk with
        | Except.error e => Except.error e
        | Except.ok true => Except.ok OrderType.sell_recommendation
        | Except.ok false =>
          let threshold : Option ℚ :=
            if cfg.enable_dynamic_threshold then
              odiv intraday_metrics.std_dev intraday_metrics.vwap
            else some (1 / 100)
          let price_to_vwap :=
            odiv (osub (some current_price) intraday_metrics.vwap) intraday_metrics.vwap
          let sufficient_volume :=
            olt (some cfg.volume_threshold) intraday_metrics.volume_ratio
          if olt price_to_vwap (oneg threshold) = true ∧
              olt (some current_price) daily_metrics.lower_band = true ∧
              sufficient_volume = true ∧
              olt (oabs price_to_vwap) (some cfg.mean_reversion_threshold) = true then
            Except.ok OrderType.buy_recommendation
          else if olt threshold price_to_vwap = true ∧
              olt daily_metrics.upper_band (some current_price) = true ∧
              olt (some cfg.mean_reversion_threshold) (oabs price_to_vwap) = true then
            Except.ok OrderType.sell_recommendation
          else Except.ok OrderType.hold_recommendation
  match body with
  | Except.error PyError.valueError => Except.ok OrderType.hold_recommendation
  | Except.error PyError.emptyDataError => Except.ok OrderType.hold_recommendation
  | r => r

end TradeBotVWAP

/-- A trade ledger entry appended by the performance analyzers: the caller's
payload dictionary plus the server-assigned timestamp. -/
structure TradeRecord where
  fields : List (String × ℚ)
  timestamp : ℕ
deriving DecidableEq, Repr

namespace CorePerformanceAnalyzer

/-- The PerformanceReport TypedDict of src/src/core/performance_analyzer.py. -/
structure PerformanceReport where
  total_return : ℚ
  sharpe_ratio : ℚ
  sortino_ratio : ℚ
  max_drawdown : ℚ
  win_rate : ℚ
  profit_factor : ℚ
  risk_adjusted_return : ℚ
  alpha : ℚ
  beta : ℚ
  information_ratio : ℚ
deriving DecidableEq, Repr

/-- `add_trade` (performance_analyzer.py lines 33-44): append with a
server-assigned timestamp. -/
def add_trade (trade_history : List TradeRecord) (trade : List (String × ℚ)) (now : ℕ) :
    List TradeRecord :=
  trade_history ++ [{ fields := trade, timestamp := now }]

/-- `_empty_performance_report` (performance_analyzer.py lines 70-83). -/
def empty_performance_report : PerformanceReport :=
  { total_return := 0, sharpe_ratio := 0, sortino_ratio := 0, max_drawdown := 0,
    win_rate := 0, profit_factor := 0, risk_adjusted_return := 0, alpha := 0,
    beta := 0, information_ratio := 0 }

/-- `get_performance_report` (performance_analyzer.py lines 46-68): the empty
ledger returns `_empty_performance_report`; a non-empty ledger returns the
literal all-zero `metrics` dictionary. -/
def get_performance_report (trade_history : List TradeRecord) : PerformanceReport :=
  if trade_history = [] then empty_performance_report
  else
    { total_return := 0, sharpe_ratio := 0, sortino_ratio := 0, max_drawdown := 0,
      win_rate := 0, profit_factor := 0, risk_adjusted_return := 0, alpha := 0,
      beta := 0, information_ratio := 0 }

end CorePerformanceAnalyzer

namespace BotsPerformanceAnalyzer

/-- `_empty_performance_report` (src/src/bots/performance_analyzer.py lines
47-60), an untyped dictionary modelled as an association list. -/
def empty_performance_report : List (String × ℚ) :=
  [("total_return", 0), ("sharpe_ratio", 0), ("sortino_ratio", 0),
   ("max_drawdown", 0), ("win_rate", 0), ("profit_factor", 0),
   ("risk_adjusted_return", 0), ("alpha", 0), ("beta", 0),
   ("information_ratio", 0)]

/-- `get_performance_report` (src/src/bots/performance_analyzer.py lines
32-45): the empty ledger returns `_empty_performance_report`, while a
non-empty ledger returns `{**metrics}` with `metrics = {}`, i.e. the empty
dictionary. -/
def get_performance_report (trade_history : List TradeRecord) : List (String × ℚ) :=
  if trade_history = [] then empty_performance_report
  else []

end BotsPerformanceAnalyzer

/-- src/src/data/order_result.py: the OrderResult dataclass (not frozen, so
its instances are mutable Python objects). -/
structure OrderResult where
  success : Bool
  order_id : Option String
  error_message : Option String
  details : Option (List (String × String))
  amount : ℚ
  price : ℚ
  timestamp : ℕ
deriving DecidableEq, Repr

/-- The default for the `timestamp` field: `datetime.now(timezone.utc)` in
the dataclass field initializer is evaluated exactly once, when the class
body is executed at module import, not at instance creation. -/
def order_result_default_timestamp (class_definition_time : ℕ) : ℕ :=
  class_definition_time

/-- Constructing an OrderResult. `creation_time` is the wall clock at the
moment of construction; per the dataclass-default semantics above it is not
consulted when `timestamp_arg` is omitted. -/
def mk_order_result (class_definition_time : ℕ) (success : Bool)
    (order_id error_message : Option String) (details : Option (List (String × String)))
    (amount price : ℚ) (timestamp_arg : Option ℕ) (creation_time : ℕ) : OrderResult :=
  { success := success, order_id := order_id, error_message := error_message,
    details := details, amount := amount, price := price,
    timestamp := timestamp_arg.getD (order_result_default_timestamp class_definition_time) }

/-! Concrete fixtures used by witness and counterexample theorems. -/

/-- A sample SMA configuration: short 10, long 50, lookback 10,
momentum threshold 0, base threshold 1%, dynamic thresholding off. -/
def sma_cfg0 : SMAConfig :=
  { sma_short_period := 10, sma_long_period := 50, momentum_lookback_period := 10,
    momentum_threshold := 0, threshold_percentage := 1 / 100,
    enable_dynamic_threshold := false }

/-- A sample short-term snapshot. -/
def short0 : TradeBotSimpleMovingAverage.TechnicalIndicators :=
  { sma := 110, std := 1, momentum := 1, volatility := 1 / 5 }

/-- A sample long-term snapshot. -/
def long0 : TradeBotSimpleMovingAverage.TechnicalIndicators :=
  { sma := 100, std := 1, momentum := 0, volatility := 1 / 10 }

/-- A sample VWAP configuration with stop_loss_percentage = 0.15. -/
def vwap_cfg0 : VWAPConfig :=
  { vwap_window := 2, enable_dynamic_threshold := false, volume_threshold := 1,
    mean_reversion_threshold := 5 / 100, stop_loss_percentage := 15 / 100,
    take_profit_percentage := 1 / 10, trailing_stop := 1 / 10,
    max_position_size := 10000 }

/-- A sample position bought at 100. -/
def pos0 : Position :=
  { quantity := 5, average_buy_price := 100, current_price := 80, equity := 400,
    unrealized_pl := 0, unrealized_pl_pct := 0, highest_price := 500 }

/-- A portfolio manager holding no positions on 1000 of capital with a 20%
position-fraction cap. -/
def pm0 : PortfolioManager :=
  { initial_capital := 1000, max_position_size := 1 / 5, positions := [] }

/-- A sample recorded trade. -/
def trade0 : TradeRecord := { fields := [("profit_loss", 5)], timestamp := 0 }

/-- A one-row intraday dataframe with valid OHLCV columns. -/
def intraday_df0 : TradeBotVWAP.DataFrame :=
  { has_price_columns := true,
    rows := [{ close_price := some 100, volume := some 10,
               high_price := some 101, low_price := some 99 }] }

/-- An empty daily dataframe that does have the OHLCV columns. -/
def empty_daily_df : TradeBotVWAP.DataFrame :=
  { has_price_columns := true, rows := [] }

/-- A dataframe missing the OHLCV columns entirely. -/
def no_columns_df : TradeBotVWAP.DataFrame :=
  { has_price_columns := false, rows := [] }

/-- The property claim C2 asserts of the Kelly sizer, stated from the
spec's words: the returned size lies within
[min_trade_amount, min(max_trade_amount, available_cash × max_position_fraction)].
The two trade-amount limits do not occur in the sizer's code, so they are
taken as parameters here. -/
def kelly_size_within_claimed_bounds (expNeg : ℚ → ℚ) (pm : PortfolioManager)
    (ticker : String) (signal_strength volatility min_trade_amount max_trade_amount : ℚ) :
    Prop :=
  min_trade_amount ≤ pm.calculate_position_size expNeg ticker signal_strength volatility ∧
  pm.calculate_position_size expNeg ticker signal_strength volatility ≤
    min max_trade_amount (pm.get_portfolio_metrics.cash_available * pm.max_position_size)

open TradeBotSimpleMovingAverage TradeBotVWAP

/-! Theorems settling the claims. -/

/-- C5: for every portfolio state (hence after every Portfolio Manager
mutation), the metrics returned by `get_portfolio_metrics` satisfy
cash_available + total_equity = initial_capital, with total_equity the sum
of the equities of the positions present in the mapping (absent positions
contribute nothing to the sum). -/
theorem c5_portfolio_cash_invariant (pm : PortfolioManager) :
    pm.get_portfolio_metrics.cash_available + pm.get_portfolio_metrics.total_equity =
      pm.initial_capital ∧
    pm.get_portfolio_metrics.total_equity =
      (pm.positions.map (fun p => p.2.equity)).sum := by
  constructor
  · simp [PortfolioManager.get_portfolio_metrics]
  · rfl

/-- C8: with an empty trade ledger, the core Performance Analyzer's
`get_performance_report` returns the explicit report with every metric
field equal to zero. -/
theorem c8_empty_ledger_zero_report :
    CorePerformanceAnalyzer.get_performance_report [] =
      { total_return := 0, sharpe_ratio := 0, sortino_ratio := 0, max_drawdown := 0,
        win_rate := 0, profit_factor := 0, risk_adjusted_return := 0, alpha := 0,
        beta := 0, information_ratio := 0 } := rfl

/-- C10 counterexample: on a non-empty ledger the bots-variant
`get_performance_report` returns the empty dictionary, not the all-zero
report, so the claim that both analyzers always return the identical
all-zero report is false. -/
theorem c10_counterexample :
    BotsPerformanceAnalyzer.get_performance_report [trade0] ≠
      BotsPerformanceAnalyzer.empty_performance_report := by
  decide

/-- C10 (amended): the core Performance Analyzer's `get_performance_report`
returns the identical all-zero report for every ledger, empty or not; the
bots variant returns the all-zero dictionary for an empty ledger and the
empty dictionary for a non-empty one. In neither variant is any metric
derived from the recorded trades. -/
theorem c10_reports_never_derived_from_trades :
    (∀ trade_history : List TradeRecord,
        CorePerformanceAnalyzer.get_performance_report trade_history =
          CorePerformanceAnalyzer.empty_performance_report) ∧
    BotsPerformanceAnalyzer.get_performance_report [] =
      BotsPerformanceAnalyzer.empty_performance_report ∧
    (∀ (t : TradeRecord) (trade_history : List TradeRecord),
        BotsPerformanceAnalyzer.get_performance_report (t :: trade_history) = []) := by
  refine ⟨fun trade_history => ?_, rfl, fun t trade_history => ?_⟩
  · unfold CorePerformanceAnalyzer.get_performance_report
    split <;> rfl
  · simp [BotsPerformanceAnalyzer.get_performance_report]

/-- C9: the `timestamp` default of OrderResult is the single datetime
captured when the dataclass body was executed at module import, so an
OrderResult built without an explicit timestamp carries the module-import
time regardless of its creation time: two OrderResults created at
different times carry the same timestamp, contradicting the claim that the
timestamp is assigned at creation. -/
theorem c9_timestamp_default_shared :
    (∀ (class_definition_time creation_time1 creation_time2 : ℕ) (success : Bool)
        (order_id error_message : Option String)
        (details : Option (List (String × String))) (amount price : ℚ),
      (mk_order_result class_definition_time success order_id error_message details
          amount price none creation_time1).timestamp =
        (mk_order_result class_definition_time success order_id error_message details
          amount price none creation_time2).timestamp) ∧
    (mk_order_result 3 true none none none 0 0 none 5).timestamp = 3 ∧
    (mk_order_result 3 true none none none 0 0 none 9).timestamp = 3 ∧
    (5 : ℕ) ≠ 9 := by
  refine ⟨fun _ _ _ _ _ _ _ _ _ => rfl, rfl, rfl, by decide⟩

/-- C2 counterexample: the Kelly sizer applies no trade-amount clamp, so
with a zero-strength signal it returns 0, below any positive configured
min_trade_amount (here 1): the claimed interval membership fails. -/
theorem c2_counterexample :
    ¬ kelly_size_within_claimed_bounds (fun _ => 1) pm0 "AAPL" 0 0 1 1000 := by
  unfold kelly_size_within_claimed_bounds PortfolioManager.calculate_position_size
    PortfolioManager.get_portfolio_metrics pm0
  norm_num

/-- C2 (amended): the Kelly position size equals
min(available_cash × 1/4 × exp(−volatility) × |signal_strength|,
available_cash × max_position_fraction); whenever available cash, the
position fraction and the exponential factor are nonnegative it is never
negative and never exceeds the available-cash fraction cap, but it is not
clamped into [min_trade_amount, max_trade_amount]. -/
theorem c2_kelly_size_bounds (expNeg : ℚ → ℚ) (pm : PortfolioManager) (ticker : String)
    (signal_strength volatility : ℚ)
    (hcash : 0 ≤ pm.get_portfolio_metrics.cash_available)
    (hfrac : 0 ≤ pm.max_position_size)
    (hexp : 0 ≤ expNeg volatility) :
    pm.calculate_position_size expNeg ticker signal_strength volatility =
      min (pm.get_portfolio_metrics.cash_available * (1 / 4) * expNeg volatility *
            |signal_strength|)
        (pm.get_portfolio_metrics.cash_available * pm.max_position_size) ∧
    0 ≤ pm.calculate_position_size expNeg ticker signal_strength volatility ∧
    pm.calculate_position_size expNeg ticker signal_strength volatility ≤
      pm.get_portfolio_metrics.cash_available * pm.max_position_size := by
  have hk : ((55 : ℚ) / 100 * (3 / 2) - (1 - 55 / 100)) / (3 / 2) = 1 / 4 := by norm_num
  have hdef : pm.calculate_position_size expNeg ticker signal_strength volatility =
      min (pm.get_portfolio_metrics.cash_available * (1 / 4) * expNeg volatility *
            |signal_strength|)
        (pm.get_portfolio_metrics.cash_available * pm.max_position_size) := by
    simp only [PortfolioManager.calculate_position_size]
    rw [hk]
  refine ⟨hdef, ?_, ?_⟩
  · rw [hdef]
    apply le_min
    · have h1 : (0 : ℚ) ≤ pm.get_portfolio_metrics.cash_available * (1 / 4) :=
        mul_nonneg hcash (by norm_num)
      exact mul_nonneg (mul_nonneg h1 hexp) (abs_nonneg _)
    · exact mul_nonneg hcash hfrac
  · rw [hdef]
    exact min_le_right _ _

/-- C2 witness: the amended bound instantiated on the concrete portfolio
`pm0` with signal strength 2 and volatility 0. -/
theorem c2_kelly_size_bounds_witness :
    0 ≤ pm0.calculate_position_size (fun _ => 1) "AAPL" 2 0 ∧
    pm0.calculate_position_size (fun _ => 1) "AAPL" 2 0 ≤
      pm0.get_portfolio_metrics.cash_available * pm0.max_position_size :=
  ⟨(c2_kelly_size_bounds (fun _ => 1) pm0 "AAPL" 2 0
      (by norm_num [PortfolioManager.get_portfolio_metrics, pm0])
      (by norm_num [pm0]) (by norm_num)).2.1,
    (c2_kelly_size_bounds (fun _ => 1) pm0 "AAPL" 2 0
      (by norm_num [PortfolioManager.get_portfolio_metrics, pm0])
      (by norm_num [pm0]) (by norm_num)).2.2⟩

/-- C4: for every price series that is empty, has fewer valid data points
than the given period, or whose close values are all non-coercible,
`calculate_technical_indicators` returns the zeroed snapshot
(total function: nothing is raised), for every choice of the float
kernels. -/
theorem c4_degraded_series_zeroed_snapshot (sqrtFn logFn round4 : ℚ → ℚ)
    (cfg : SMAConfig) (closes : List (Option ℚ)) (period : ℕ)
    (h : closes = [] ∨ (closes.filterMap id).length < period ∨ ∀ c ∈ closes, c = none) :
    calculate_technical_indicators sqrtFn logFn round4 cfg closes period =
      zero_indicators := by
  rcases h with h | h | h
  · simp [calculate_technical_indicators, h]
  · by_cases hc : closes = []
    · simp [calculate_technical_indicators, hc]
    · by_cases hp : period = 0
      · simp [calculate_technical_indicators, hp]
      · simp [calculate_technical_indicators, hc, hp, h]
  · have hv : closes.filterMap id = [] := by
      rw [List.filterMap_eq_nil_iff]
      intro a ha
      simpa using h a ha
    by_cases hp : period = 0
    · simp [calculate_technical_indicators, hp]
    · by_cases hc : closes = []
      · simp [calculate_technical_indicators, hc]
      · simp [calculate_technical_indicators, hc, hp, hv, Nat.pos_of_ne_zero hp]

/-- C4 witness: a one-point series against period 5 yields the zeroed
snapshot. -/
theorem c4_degraded_series_zeroed_snapshot_witness :
    calculate_technical_indicators id id id sma_cfg0 [some 1] 5 = zero_indicators :=
  c4_degraded_series_zeroed_snapshot id id id sma_cfg0 [some 1] 5
    (Or.inr (Or.inl (by decide)))

/-- C1: given the short-term and long-term indicator snapshots (and a
nonnegative effective threshold, which every nonnegative configured base
threshold produces), the SMA recommendation is BUY exactly when
signal_strength exceeds the effective threshold and momentum is confirmed,
SELL exactly when signal_strength < −threshold or (signal_strength < 0 and
momentum is not confirmed), and HOLD otherwise, where the effective
threshold is base_threshold × (1 + trend_strength) under dynamic
thresholding and base_threshold otherwise. -/
theorem c1_sma_decision_characterization (cfg : SMAConfig)
    (short_term long_term : TechnicalIndicators)
    (h : 0 ≤ effective_threshold cfg (analyze_market_conditions cfg short_term long_term).1) :
    (make_order_recommendation cfg short_term long_term = OrderType.buy_recommendation ↔
      (analyze_market_conditions cfg short_term long_term).2.1 >
          effective_threshold cfg (analyze_market_conditions cfg short_term long_term).1 ∧
        (analyze_market_conditions cfg short_term long_term).2.2 = true) ∧
    (make_order_recommendation cfg short_term long_term = OrderType.sell_recommendation ↔
      (analyze_market_conditions cfg short_term long_term).2.1 <
          -effective_threshold cfg (analyze_market_conditions cfg short_term long_term).1 ∨
        ((analyze_market_conditions cfg short_term long_term).2.1 < 0 ∧
          (analyze_market_conditions cfg short_term long_term).2.2 = false)) ∧
    (make_order_recommendation cfg short_term long_term = OrderType.hold_recommendation ↔
      ¬((analyze_market_conditions cfg short_term long_term).2.1 >
          effective_threshold cfg (analyze_market_conditions cfg short_term long_term).1 ∧
        (analyze_market_conditions cfg short_term long_term).2.2 = true) ∧
      ¬((analyze_market_conditions cfg short_term long_term).2.1 <
          -effective_threshold cfg (analyze_market_conditions cfg short_term long_term).1 ∨
        ((analyze_market_conditions cfg short_term long_term).2.1 < 0 ∧
          (analyze_market_conditions cfg short_term long_term).2.2 = false))) := by
  set a := analyze_market_conditions cfg short_term long_term with ha
  set t := effective_threshold cfg a.1 with ht
  have key : make_order_recommendation cfg short_term long_term =
      (if a.2.1 > t ∧ a.2.2 = true then OrderType.buy_recommendation
       else if a.2.1 < -t ∨ (a.2.1 < 0 ∧ a.2.2 = false) then OrderType.sell_recommendation
       else OrderType.hold_recommendation) := rfl
  rw [key]
  by_cases h1 : a.2.1 > t ∧ a.2.2 = true
  · have h2 : ¬(a.2.1 < -t ∨ (a.2.1 < 0 ∧ a.2.2 = false)) := by
      rintro (hlt | ⟨hneg, hms⟩)
      · linarith [h1.1]
      · rw [h1.2] at hms
        exact Bool.noConfusion hms
    simp [h1, h2]
    linarith [h1.1]
  · by_cases h2 : a.2.1 < -t ∨ (a.2.1 < 0 ∧ a.2.2 = false)
    · simp [h1, h2]
    · simp [h1, h2]

/-- C1 witness: on the concrete snapshots `short0`, `long0` under
`sma_cfg0` the threshold is nonnegative and the recommendation is BUY. -/
theorem c1_sma_decision_characterization_witness :
    make_order_recommendation sma_cfg0 short0 long0 = OrderType.buy_recommendation :=
  (c1_sma_decision_characterization sma_cfg0 short0 long0
      (by norm_num [effective_threshold, sma_cfg0])).1.mpr
    (by norm_num [analyze_market_conditions, effective_threshold, sma_cfg0, short0, long0])

/-- C3: the Risk Manager checks stop-loss, take-profit, trailing-stop and
max-position-size in that order, returning exit on the first trigger that
fires without combining them: (i) for a well-defined evaluation the boolean
outcome is exactly the disjunction of the four triggers; (ii) a firing
stop-loss yields exit before any later trigger is even evaluated (no
zero-watermark hypothesis is needed); (iii) in particular a position with
average_buy_price 100 evaluated at current_price 80 under
stop_loss_pct 0.15 exits. -/
theorem c3_risk_trigger_order :
    (∀ (cfg : VWAPConfig) (current_price : ℚ) (position : Position),
        position.average_buy_price ≠ 0 →
        max position.highest_price (current_price * position.quantity) ≠ 0 →
        ((check_risk_management cfg current_price position).1 = Except.ok true ↔
          (current_price - position.average_buy_price) / position.average_buy_price <
              -cfg.stop_loss_percentage ∨
            (current_price - position.average_buy_price) / position.average_buy_price >
              cfg.take_profit_percentage ∨
            (max position.highest_price (current_price * position.quantity) -
                  current_price * position.quantity) /
                max position.highest_price (current_price * position.quantity) >
              cfg.trailing_stop ∨
            current_price * position.quantity > cfg.max_position_size)) ∧
    (∀ (cfg : VWAPConfig) (current_price : ℚ) (position : Position),
        position.average_buy_price ≠ 0 →
        (current_price - position.average_buy_price) / position.average_buy_price <
          -cfg.stop_loss_percentage →
        (check_risk_management cfg current_price position).1 = Except.ok true) ∧
    (∀ (cfg : VWAPConfig) (position : Position),
        position.average_buy_price = 100 → cfg.stop_loss_percentage = 15 / 100 →
        (check_risk_management cfg 80 position).1 = Except.ok true) := by
  have part2 : ∀ (cfg : VWAPConfig) (current_price : ℚ) (position : Position),
      position.average_buy_price ≠ 0 →
      (current_price - position.average_buy_price) / position.average_buy_price <
        -cfg.stop_loss_percentage →
      (check_risk_management cfg current_price position).1 = Except.ok true := by
    intro cfg current_price position habp hsl
    simp [check_risk_management, habp, hsl]
  refine ⟨?_, part2, ?_⟩
  · intro cfg current_price position habp hmax
    by_cases hsl : (current_price - position.average_buy_price) /
        position.average_buy_price < -cfg.stop_loss_percentage
    · simp [check_risk_management, habp, hsl]
    · by_cases htp : (current_price - position.average_buy_price) /
          position.average_buy_price > cfg.take_profit_percentage
      · simp [check_risk_management, habp, hsl, htp]
      · by_cases htr : (max position.highest_price (current_price * position.quantity) -
              current_price * position.quantity) /
            max position.highest_price (current_price * position.quantity) >
            cfg.trailing_stop
        · simp [check_risk_management, habp, hsl, htp, hmax, htr]
        · by_cases hpv : current_price * position.quantity > cfg.max_position_size
          · simp [check_risk_management, habp, hsl, htp, hmax, htr, hpv]
          · simp [check_risk_management, habp, hsl, htp, hmax, htr, hpv]
  · intro cfg position habp hslpct
    apply part2
    · rw [habp]
      norm_num
    · rw [habp, hslpct]
      norm_num

/-- C3 witness: the concrete stop-loss scenario on `pos0` and `vwap_cfg0`. -/
theorem c3_risk_trigger_order_witness :
    (check_risk_management vwap_cfg0 80 pos0).1 = Except.ok true :=
  c3_risk_trigger_order.2.2 vwap_cfg0 pos0 rfl rfl

/-- Single-call watermark monotonicity of the Risk Manager, shared by the
chained statement below. -/
theorem check_risk_management_highest_price_mono (cfg : VWAPConfig) (price : ℚ)
    (pos : Position) :
    pos.highest_price ≤ ((check_risk_management cfg price pos).2).highest_price := by
  simp only [check_risk_management]
  split_ifs <;> simp [le_max_left, le_sup_left]

/-- C7: `highest_price` is a monotonically non-decreasing watermark:
(i) every well-defined evaluate call rewrites it to
max(highest_price, current_price × quantity); (ii) no call, even one that
raises, ever decreases it; (iii) across every sequence of evaluate calls it
never decreases. -/
theorem c7_watermark_monotone :
    (∀ (cfg : VWAPConfig) (price : ℚ) (pos : Position),
        pos.average_buy_price ≠ 0 →
        ((check_risk_management cfg price pos).2).highest_price =
          max pos.highest_price (price * pos.quantity)) ∧
    (∀ (cfg : VWAPConfig) (price : ℚ) (pos : Position),
        pos.highest_price ≤ ((check_risk_management cfg price pos).2).highest_price) ∧
    (∀ (cfg : VWAPConfig) (prices : List ℚ) (pos : Position),
        pos.highest_price ≤ (run_risk_evaluations cfg prices pos).highest_price) := by
  refine ⟨?_, check_risk_management_highest_price_mono, ?_⟩
  · intro cfg price pos habp
    simp only [check_risk_management, if_neg habp]
    split_ifs <;> rfl
  · intro cfg prices
    induction prices with
    | nil => intro pos; exact le_refl _
    | cons p ps ih =>
      intro pos
      exact le_trans (check_risk_management_highest_price_mono cfg p pos)
        (ih ((check_risk_management cfg p pos).2))

/-- C7 witness: a concrete well-defined call rewrites the watermark to the
max of its old value and the position value. -/
theorem c7_watermark_monotone_witness :
    ((check_risk_management vwap_cfg0 90 pos0).2).highest_price =
      max pos0.highest_price (90 * pos0.quantity) :=
  c7_watermark_monotone.1 vwap_cfg0 90 pos0 (by norm_num [pos0])

/-- C6: on an empty daily dataframe that does have the OHLCV columns, the
VWAP `make_trading_decision` does not return HOLD: `df.iloc[-1]` raises
IndexError, which neither except clause catches, so the exception
propagates (first conjunct); only when the metric computation fails with a
caught data error (e.g. missing columns → KeyError re-raised as
ValueError) does the engine hold (second conjunct). -/
theorem c6_empty_daily_frame_raises :
    make_trading_decision id vwap_cfg0 intraday_df0 empty_daily_df 100 none =
      Except.error PyError.indexError ∧
    make_trading_decision id vwap_cfg0 intraday_df0 no_columns_df 100 none =
      Except.ok OrderType.hold_recommendation :=
  ⟨rfl, rfl⟩

end RobinhoodBot
